import Mathlib

/-!
Shallow embedding of the Lender Service Provider (LSP) backend
(src/main.py, src/schemas.py): the valuation engine `estimate_value`
and the loan-request lifecycle (`create_loan_request`, `create_byob`,
`update_status`).

Python floats are modelled as rationals (ℚ); Python's `round(x, 0)`
(banker's rounding, round half to even) is modelled by `roundHalfEven`.
`datetime.datetime.now().year` is modelled as an explicit `currentYear`
parameter.  The MongoDB store is abstracted away: operations act
directly on the in-memory record they would read and patch.
-/

namespace LSP

/-- Python round-half-to-even on a rational, as used by `round(x, 0)`:
the floor when the fractional part is below one half, the ceiling when it
is above, and the even neighbour on an exact tie.  The comparisons are
stated multiplicatively (`2q` against `2⌊q⌋ + 1`) which is equivalent to
comparing the fractional part `q - ⌊q⌋` with `1/2`. -/
def roundHalfEven (q : ℚ) : ℤ :=
  if 2 * q < 2 * (⌊q⌋ : ℚ) + 1 then ⌊q⌋
  else if 2 * (⌊q⌋ : ℚ) + 1 < 2 * q then ⌊q⌋ + 1
  else if ⌊q⌋ % 2 = 0 then ⌊q⌋ else ⌊q⌋ + 1

/-- Asset category (schemas.py, LoanAsset.category: Literal["vehicle", "electronics"]). -/
inductive Category
  | vehicle
  | electronics
deriving DecidableEq

/-- Asset condition (schemas.py, LoanAsset.condition). -/
inductive Condition
  | excellent
  | good
  | fair
  | poor
deriving DecidableEq

/-- schemas.py LoanAsset. -/
structure LoanAsset where
  category : Category
  subtype : String
  make : Option String := none
  model : Option String := none
  year : Option ℤ := none
  condition : Option Condition := some Condition.good
  notes : Option String := none
deriving DecidableEq

/-- schemas.py LoanEstimation (floats holding whole-unit values after rounding). -/
structure LoanEstimation where
  estimated_value : ℚ
  suggested_loan : ℚ
  ltv : ℚ
deriving DecidableEq

/-- schemas.py Borrower. -/
structure Borrower where
  name : String
  mobile : String
  city : String
deriving DecidableEq

/-- schemas.py Lender (name required; mobile and company optional). -/
structure Lender where
  name : String
  mobile : Option String := none
  company : Option String := none
deriving DecidableEq

/-- schemas.py MediaItem.kind. -/
inductive MediaKind
  | photo
  | video
deriving DecidableEq

/-- schemas.py MediaItem. -/
structure MediaItem where
  kind : MediaKind
  url : String
  filename : String
  content_type : Option String := none
  size_bytes : Option ℤ := none
deriving DecidableEq

/-- schemas.py LoanRequest.status: Literal["Pending", "Approved", "Rejected", "Modified"]. -/
inductive Status
  | Pending
  | Approved
  | Rejected
  | Modified
deriving DecidableEq

/-- schemas.py LoanRequest.source: Literal["platform", "byob"]. -/
inductive Source
  | platform
  | byob
deriving DecidableEq

/-- schemas.py LoanRequest: the persisted loan-request record. -/
structure LoanRequest where
  borrower : Borrower
  asset : LoanAsset
  estimation : LoanEstimation
  status : Status := Status.Pending
  offer_amount : Option ℚ := none
  lender_note : Option String := none
  media : List MediaItem := []
  source : Source := Source.platform
  lender_id : Option String := none
deriving DecidableEq

/-- Python `str.lower()`, modelled as character-wise lowercasing of the
underlying character list (the subtype keys involved are ASCII). -/
def pyLower (s : String) : String := String.mk (s.data.map Char.toLower)

/-- main.py lines 93-100: lower-case the subtype and fall back to a default
key when it is not one of the known keys of the category. -/
def normalizeSubtype (category : Category) (subtype : String) : String :=
  let k := pyLower subtype
  match category with
  | Category.vehicle =>
      if k = "2-wheeler" ∨ k = "3-wheeler" ∨ k = "4-wheeler" then k else "2-wheeler"
  | Category.electronics =>
      if k = "laptop" ∨ k = "mobile" ∨ k = "other" then k else "other"

/-- main.py lines 81-92, 102: the two-level base-value table.  After
normalization the key is always found; the final arm is unreachable
(a KeyError in Python) and returns the last entry of each row. -/
def base_map (category : Category) (k : String) : ℚ :=
  match category with
  | Category.vehicle =>
      if k = "2-wheeler" then 80000
      else if k = "3-wheeler" then 200000
      else 600000
  | Category.electronics =>
      if k = "laptop" then 60000
      else if k = "mobile" then 40000
      else 20000

/-- main.py line 104: `year = asset.year or 2020`.  Python `or` falls
through on falsy values, so both `None` and the integer `0` yield 2020. -/
def effectiveYear (y : Option ℤ) : ℤ :=
  match y with
  | none => 2020
  | some v => if v = 0 then 2020 else v

/-- main.py lines 119-124: condition multiplier; `asset.condition or "good"`
maps an absent condition to good (factor 1). -/
def conditionFactor (c : Option Condition) : ℚ :=
  match c with
  | some Condition.excellent => 105/100
  | some Condition.good => 1
  | some Condition.fair => 85/100
  | some Condition.poor => 7/10
  | none => 1

/-- main.py lines 80-126: the valuation chain of `estimate_value` up to and
including the 5000 floor, before any rounding.  `currentYear` models
`datetime.datetime.now().year`; `int(year)` on a typed integer never raises,
so the `except` fallback `age = 4` is unreachable. -/
def rawEstimated (currentYear : ℤ) (asset : LoanAsset) : ℚ :=
  let base := base_map asset.category (normalizeSubtype asset.category asset.subtype)
  let age : ℕ := (currentYear - effectiveYear asset.year).toNat
  let value : ℚ :=
    match asset.category with
    | Category.vehicle => base * (85/100) * (9/10) ^ (age - 1)
    | Category.electronics => base * (7/10) * (3/4) ^ age
  max 5000 (value * conditionFactor asset.condition)

/-- main.py line 128: the LTV policy constant. -/
def ltvOf (category : Category) : ℚ :=
  match category with
  | Category.vehicle => 6/10
  | Category.electronics => 5/10

/-- main.py lines 80-130: `estimate_value(asset)`.  Transcribed as one
self-contained chain mirroring the Python function: base lookup with
subtype normalization, age from `max(0, currentYear - year)` (the `- 1`
and the exponent use ℕ truncated subtraction, which equals Python's
`max(0, ...)` here), category depreciation curve, condition multiplier,
5000 floor, then `suggested = round(estimated * ltv, 0)` and
`estimated_value = round(estimated, 0)`. -/
def estimate_value (currentYear : ℤ) (asset : LoanAsset) : LoanEstimation :=
  let subtype_key := normalizeSubtype asset.category asset.subtype
  let base := base_map asset.category subtype_key
  let age : ℕ := (currentYear - effectiveYear asset.year).toNat
  let value : ℚ :=
    match asset.category with
    | Category.vehicle => base * (85/100) * (9/10) ^ (age - 1)
    | Category.electronics => base * (7/10) * (3/4) ^ age
  let estimated : ℚ := max 5000 (value * conditionFactor asset.condition)
  let ltv : ℚ := ltvOf asset.category
  let suggested : ℚ := ((roundHalfEven (estimated * ltv) : ℤ) : ℚ)
  { estimated_value := ((roundHalfEven estimated : ℤ) : ℚ)
    suggested_loan := suggested
    ltv := ltv }

/-- main.py CreateLoanInput. -/
structure CreateLoanInput where
  borrower : Borrower
  asset : LoanAsset
  media : List MediaItem := []
deriving DecidableEq

/-- main.py ModifyOfferInput: `offer_amount: float` is required (pydantic
rejects a missing or null value), `lender_note` optional. -/
structure ModifyOfferInput where
  offer_amount : ℚ
  lender_note : Option String := none
deriving DecidableEq

/-- main.py Action literal of StatusUpdateInput.action. -/
inductive Action
  | Approve
  | Reject
  | Modify
deriving DecidableEq

/-- main.py StatusUpdateInput. -/
structure StatusUpdateInput where
  action : Action
  data : Option ModifyOfferInput := none
deriving DecidableEq

/-- main.py BYOBInput. -/
structure BYOBInput where
  lender : Lender
  borrower : Borrower
  asset : LoanAsset
deriving DecidableEq

/-- The error taxonomy of the lifecycle operations (HTTP 404 and 400 in
main.py).  `NotFound` is raised by the store lookup, which is abstracted
away here; `InvalidArgument` carries the `detail` string. -/
inductive ApiError
  | NotFound
  | InvalidArgument (msg : String)
deriving DecidableEq

/-- main.py lines 172-183: `create_loan_request`.  Returns the record
handed to the store for insertion (the store-assigned id is outside the
model).  All LoanRequest fields not set here take their schema defaults:
`offer_amount = none`, `lender_note = none`, `lender_id = none`. -/
def create_loan_request (currentYear : ℤ) (payload : CreateLoanInput) : LoanRequest :=
  { borrower := payload.borrower
    asset := payload.asset
    estimation := estimate_value currentYear payload.asset
    media := payload.media
    status := Status.Pending
    source := Source.platform }

/-- main.py line 253: `payload.lender.company or payload.lender.name or "lender"`.
Python `or` falls through on falsy values: a `None` or empty `company`
yields the name, and an empty name yields the literal `"lender"`. -/
def byobLenderId (l : Lender) : String :=
  match l.company with
  | some c => if c = "" then (if l.name = "" then "lender" else l.name) else c
  | none => if l.name = "" then "lender" else l.name

/-- main.py lines 243-256: `create_byob`.  Like the platform creation but
with `source = byob`, no media, and the lender identity string. -/
def create_byob (currentYear : ℤ) (payload : BYOBInput) : LoanRequest :=
  { borrower := payload.borrower
    asset := payload.asset
    estimation := estimate_value currentYear payload.asset
    media := []
    status := Status.Pending
    source := Source.byob
    lender_id := some (byobLenderId payload.lender) }

/-- The sparse `$set` patch built by `update_status` (main.py lines 214-225):
each field is `some v` when the update dict contains it. -/
structure Patch where
  status : Option Status := none
  offer_amount : Option ℚ := none
  lender_note : Option String := none
deriving DecidableEq

/-- `if not update:` — the patch dict is empty when no field was added. -/
def Patch.isEmpty (p : Patch) : Bool :=
  p.status.isNone && p.offer_amount.isNone && p.lender_note.isNone

/-- main.py lines 214-225: build the update dict.  For `Modify`,
`if not payload.data or payload.data.offer_amount is None` reduces to
`payload.data is None` because `offer_amount` is a required float and a
pydantic model instance is always truthy; `lender_note` is added only when
truthy, i.e. present and non-empty. -/
def computePatch (payload : StatusUpdateInput) : Except ApiError Patch :=
  match payload.action with
  | Action.Approve => Except.ok { status := some Status.Approved }
  | Action.Reject => Except.ok { status := some Status.Rejected }
  | Action.Modify =>
      match payload.data with
      | none => Except.error (ApiError.InvalidArgument "offer_amount required for Modify")
      | some d =>
          Except.ok
            { status := some Status.Modified
              offer_amount := some d.offer_amount
              lender_note :=
                match d.lender_note with
                | some n => if n = "" then none else some n
                | none => none }

/-- MongoDB `$set` semantics (main.py line 230): overwrite exactly the
fields present in the patch, leave every other field of the record as is. -/
def applyPatch (p : Patch) (s : LoanRequest) : LoanRequest :=
  { s with
    status := match p.status with | some st => st | none => s.status
    offer_amount := match p.offer_amount with | some v => some v | none => s.offer_amount
    lender_note := match p.lender_note with | some n => some n | none => s.lender_note }

/-- main.py lines 208-232: `update_status` on an existing record `s` (the
`find_one` / `NotFound` part is the store's concern and `s` stands for the
record it returned).  Builds the patch, rejects an empty patch with
`"No update provided"`, otherwise applies it and returns the re-read,
patched record. -/
def update_status (payload : StatusUpdateInput) (s : LoanRequest) : Except ApiError LoanRequest :=
  match computePatch payload with
  | Except.error e => Except.error e
  | Except.ok p =>
      if p.isEmpty then Except.error (ApiError.InvalidArgument "No update provided")
      else Except.ok (applyPatch p s)

/-- One HTTP status-update request against the stored record: a failing
request leaves the stored record unchanged. -/
def stepStatus (s : LoanRequest) (payload : StatusUpdateInput) : LoanRequest :=
  match update_status payload s with
  | Except.ok s2 => s2
  | Except.error _ => s

/-- The stored record after a sequence of status-update requests. -/
def applyAll (payloads : List StatusUpdateInput) (s : LoanRequest) : LoanRequest :=
  payloads.foldl stepStatus s

/-- A request that performs a successful `Modify` transition: action is
`Modify` and the (typed) payload data is present, which is exactly the
success condition of the Modify branch. -/
def isSuccessfulModify (payload : StatusUpdateInput) : Bool :=
  match payload.action, payload.data with
  | Action.Modify, some _ => true
  | _, _ => false

/-- A successful `Modify` transition that carries a truthy (present and
non-empty) `lender_note`. -/
def isModifyWithNote (payload : StatusUpdateInput) : Bool :=
  match payload.action, payload.data with
  | Action.Modify, some d =>
      match d.lender_note with
      | some n => n ≠ ""
      | none => false
  | _, _ => false

/-! Concrete fixtures used by witnesses and counterexamples. -/

/-- A concrete borrower for witness records. -/
def sampleBorrower : Borrower :=
  { name := "Asha", mobile := "9999999999", city := "Mumbai" }

/-- A concrete asset for witness records. -/
def sampleAsset : LoanAsset :=
  { category := Category.electronics, subtype := "tablet" }

/-- A concrete freshly created platform loan request. -/
def sampleRequest : LoanRequest :=
  create_loan_request 2024 { borrower := sampleBorrower, asset := sampleAsset }

/-! Theorems for the claims. -/

/-- Claim C4: `update_status` never inspects the current status of the
record before applying a transition.  For every existing record in any
state, Approve and Reject succeed unconditionally, Modify with an
offer amount succeeds unconditionally, and the result of Approve has
status `Approved` whatever the previous status was — in particular
re-running Approve on an already-Approved record succeeds and the status
stays `Approved`. -/
theorem update_status_ignores_current_status :
    ∀ (s : LoanRequest) (d : Option ModifyOfferInput) (m : ModifyOfferInput),
      (∃ s1, update_status { action := Action.Approve, data := d } s = Except.ok s1) ∧
      (∃ s2, update_status { action := Action.Reject, data := d } s = Except.ok s2) ∧
      (∃ s3, update_status { action := Action.Modify, data := some m } s = Except.ok s3) ∧
      (update_status { action := Action.Approve, data := d } s).map LoanRequest.status =
        Except.ok Status.Approved := by
  intro s d m
  exact ⟨⟨_, rfl⟩, ⟨_, rfl⟩, ⟨_, rfl⟩, rfl⟩

/-- Claim C5: on an existing record, `Modify` fails with
`InvalidArgument ("offer_amount required for Modify")` exactly when the
payload data is absent (the typed `offer_amount` field is a required
float, so a present payload always carries a value), and with data
present it always succeeds, setting `status = Modified` and
`offer_amount` to the supplied amount. -/
theorem modify_requires_offer_amount :
    ∀ (s : LoanRequest) (d : Option ModifyOfferInput),
      (update_status { action := Action.Modify, data := d } s =
          Except.error (ApiError.InvalidArgument "offer_amount required for Modify") ↔
        d = none) ∧
      ∀ m : ModifyOfferInput,
        ∃ s1, update_status { action := Action.Modify, data := some m } s = Except.ok s1 ∧
          s1.status = Status.Modified ∧ s1.offer_amount = some m.offer_amount := by
  intro s d
  constructor
  · cases d with
    | none => simp [update_status, computePatch]
    | some m => simp [update_status, computePatch, Patch.isEmpty]
  · intro m
    exact ⟨_, rfl, rfl, rfl⟩

/-- Claim C7: the status-update patch touches nothing beyond its
specified fields.  Approve and Reject yield exactly the record with only
`status` replaced, and a Modify whose `lender_note` is absent or empty
yields exactly the record with only `status` and `offer_amount` replaced,
leaving any previously stored `lender_note` (and every other field)
unchanged. -/
theorem status_patch_frame :
    ∀ (s : LoanRequest) (d : Option ModifyOfferInput) (amt : ℚ),
      update_status { action := Action.Approve, data := d } s =
        Except.ok { s with status := Status.Approved } ∧
      update_status { action := Action.Reject, data := d } s =
        Except.ok { s with status := Status.Rejected } ∧
      update_status (StatusUpdateInput.mk Action.Modify (some (ModifyOfferInput.mk amt none))) s =
        Except.ok { s with status := Status.Modified, offer_amount := some amt } ∧
      update_status (StatusUpdateInput.mk Action.Modify (some (ModifyOfferInput.mk amt (some "")))) s =
        Except.ok { s with status := Status.Modified, offer_amount := some amt } := by
  intro s d amt
  refine ⟨rfl, rfl, rfl, ?_⟩
  simp [update_status, computePatch, applyPatch, Patch.isEmpty]

/-- Claim C9: with the action confined by its type to the three literals
Approve, Reject and Modify, every successfully computed patch contains a
status field and is therefore non-empty, so `update_status` can never
reach the `InvalidArgument ("No update provided")` branch. -/
theorem no_update_provided_unreachable :
    ∀ (payload : StatusUpdateInput) (s : LoanRequest),
      (∀ p, computePatch payload = Except.ok p → p.isEmpty = false) ∧
      update_status payload s ≠ Except.error (ApiError.InvalidArgument "No update provided") := by
  intro payload s
  obtain ⟨act, d⟩ := payload
  cases act with
  | Approve =>
      refine ⟨fun p hp => ?_, ?_⟩
      · cases hp; rfl
      · simp [update_status, computePatch, Patch.isEmpty]
  | Reject =>
      refine ⟨fun p hp => ?_, ?_⟩
      · cases hp; rfl
      · simp [update_status, computePatch, Patch.isEmpty]
  | Modify =>
      cases d with
      | none =>
          refine ⟨fun p hp => ?_, ?_⟩
          · simp [computePatch] at hp
          · simp [update_status, computePatch]
      | some m =>
          refine ⟨fun p hp => ?_, ?_⟩
          · cases hp; rfl
          · simp [update_status, computePatch, Patch.isEmpty]

/-- Witness for C9 at a concrete payload and record: the computed Approve
patch is non-empty and the defensive branch is not hit. -/
theorem no_update_provided_unreachable_witness :
    Patch.isEmpty { status := some Status.Approved } = false ∧
    update_status { action := Action.Approve } sampleRequest ≠
      Except.error (ApiError.InvalidArgument "No update provided") :=
  ⟨(no_update_provided_unreachable { action := Action.Approve } sampleRequest).1 _ rfl,
   (no_update_provided_unreachable { action := Action.Approve } sampleRequest).2⟩

/-- Helper: one status-update request leaves `offer_amount` present exactly
when it was already present or the request is a successful Modify. -/
theorem stepStatus_offer_isSome (s : LoanRequest) (payload : StatusUpdateInput) :
    ((stepStatus s payload).offer_amount).isSome =
      (s.offer_amount.isSome || isSuccessfulModify payload) := by
  obtain ⟨act, d⟩ := payload
  cases act <;> cases d <;>
    simp [stepStatus, update_status, computePatch, applyPatch, Patch.isEmpty, isSuccessfulModify]

/-- Helper: one status-update request leaves `lender_note` present exactly
when it was already present or the request is a successful Modify with a
non-empty note. -/
theorem stepStatus_note_isSome (s : LoanRequest) (payload : StatusUpdateInput) :
    ((stepStatus s payload).lender_note).isSome =
      (s.lender_note.isSome || isModifyWithNote payload) := by
  obtain ⟨act, d⟩ := payload
  cases act with
  | Approve =>
      cases d <;>
        simp [stepStatus, update_status, computePatch, applyPatch, Patch.isEmpty, isModifyWithNote]
  | Reject =>
      cases d <;>
        simp [stepStatus, update_status, computePatch, applyPatch, Patch.isEmpty, isModifyWithNote]
  | Modify =>
      cases d with
      | none =>
          simp [stepStatus, update_status, computePatch, applyPatch, Patch.isEmpty, isModifyWithNote]
      | some m =>
          obtain ⟨amt, note⟩ := m
          cases note with
          | none =>
              simp [stepStatus, update_status, computePatch, applyPatch, Patch.isEmpty,
                isModifyWithNote]
          | some n =>
              by_cases hn : n = "" <;>
                simp [stepStatus, update_status, computePatch, applyPatch, Patch.isEmpty,
                  isModifyWithNote, hn]

/-- Helper: after any sequence of status-update requests, `offer_amount`
is present exactly when it was initially present or some request in the
sequence is a successful Modify. -/
theorem applyAll_offer_isSome (payloads : List StatusUpdateInput) (s : LoanRequest) :
    ((applyAll payloads s).offer_amount).isSome =
      (s.offer_amount.isSome || payloads.any isSuccessfulModify) := by
  induction payloads generalizing s with
  | nil => simp [applyAll]
  | cons a l ih =>
      have h1 : applyAll (a :: l) s = applyAll l (stepStatus s a) := rfl
      rw [h1, ih (stepStatus s a), stepStatus_offer_isSome, List.any_cons, Bool.or_assoc]

/-- Helper: after any sequence of status-update requests, `lender_note`
is present exactly when it was initially present or some request in the
sequence is a successful Modify with a non-empty note. -/
theorem applyAll_note_isSome (payloads : List StatusUpdateInput) (s : LoanRequest) :
    ((applyAll payloads s).lender_note).isSome =
      (s.lender_note.isSome || payloads.any isModifyWithNote) := by
  induction payloads generalizing s with
  | nil => simp [applyAll]
  | cons a l ih =>
      have h1 : applyAll (a :: l) s = applyAll l (stepStatus s a) := rfl
      rw [h1, ih (stepStatus s a), stepStatus_note_isSome, List.any_cons, Bool.or_assoc]

/-- Claim C2 counterexample: a freshly created record taken through one
successful `Modify` transition whose payload carries no note ends with
`offer_amount` set but `lender_note` still absent, refuting the stated
invariant that both fields are set when the record has passed through a
`Modify` transition. -/
theorem modify_without_note_counterexample :
    isSuccessfulModify (StatusUpdateInput.mk Action.Modify (some (ModifyOfferInput.mk 1000 none))) =
      true ∧
    (applyAll [StatusUpdateInput.mk Action.Modify (some (ModifyOfferInput.mk 1000 none))]
        sampleRequest).status = Status.Modified ∧
    (applyAll [StatusUpdateInput.mk Action.Modify (some (ModifyOfferInput.mk 1000 none))]
        sampleRequest).offer_amount = some 1000 ∧
    (applyAll [StatusUpdateInput.mk Action.Modify (some (ModifyOfferInput.mk 1000 none))]
        sampleRequest).lender_note = none :=
  ⟨rfl, rfl, rfl, rfl⟩

/-- Claim C2 (amended): on both creation paths `offer_amount` and
`lender_note` start absent, and for every record with both fields absent
and every sequence of status-update requests, `offer_amount` is set iff
the sequence contains at least one successful Modify transition, while
`lender_note` is set iff it contains at least one successful Modify
transition carrying a non-empty note. -/
theorem offer_and_note_iff_modify :
    ∀ (cy : ℤ) (pl : CreateLoanInput) (pb : BYOBInput),
      ((create_loan_request cy pl).offer_amount = none ∧
        (create_loan_request cy pl).lender_note = none ∧
        (create_byob cy pb).offer_amount = none ∧
        (create_byob cy pb).lender_note = none) ∧
      ∀ (payloads : List StatusUpdateInput) (s : LoanRequest),
        s.offer_amount = none → s.lender_note = none →
          ((applyAll payloads s).offer_amount).isSome = payloads.any isSuccessfulModify ∧
          ((applyAll payloads s).lender_note).isSome = payloads.any isModifyWithNote := by
  intro cy pl pb
  refine ⟨⟨rfl, rfl, rfl, rfl⟩, ?_⟩
  intro payloads s h1 h2
  constructor
  · rw [applyAll_offer_isSome, h1]
    rfl
  · rw [applyAll_note_isSome, h2]
    rfl

/-- Witness for C2 (amended) at a concrete record and request sequence:
one Modify with an offer and a non-empty note makes both fields present. -/
theorem offer_and_note_iff_modify_witness :
    ((applyAll [StatusUpdateInput.mk Action.Modify (some (ModifyOfferInput.mk 2500 (some "ok")))]
        sampleRequest).offer_amount).isSome = true ∧
    ((applyAll [StatusUpdateInput.mk Action.Modify (some (ModifyOfferInput.mk 2500 (some "ok")))]
        sampleRequest).lender_note).isSome = true := by
  have h :=
    (offer_and_note_iff_modify 2024
        (CreateLoanInput.mk sampleBorrower sampleAsset [])
        (BYOBInput.mk (Lender.mk "Raj" none none) sampleBorrower sampleAsset)).2
      [StatusUpdateInput.mk Action.Modify (some (ModifyOfferInput.mk 2500 (some "ok")))]
      sampleRequest rfl rfl
  exact ⟨h.1.trans (by decide), h.2.trans (by decide)⟩

/-- The laptop asset from 2021 used to separate the two rounding orders. -/
def laptopAsset : LoanAsset :=
  { category := Category.electronics, subtype := "laptop", year := some 2021 }

/-- Helper: the full valuation of the tablet scenario of §8. -/
theorem estimate_tablet_2024 :
    estimate_value 2024 sampleAsset =
      { estimated_value := 5000, suggested_loan := 2500, ltv := 1/2 } := by
  have h1 : normalizeSubtype Category.electronics "tablet" = "other" := by decide
  have h2 : ((2024 : ℤ) - effectiveYear none).toNat = 4 := by decide
  simp only [sampleAsset, estimate_value]
  rw [h1, h2]
  simp +decide only [base_map, conditionFactor, ltvOf]
  norm_num [roundHalfEven, max_def]

/-- Helper: the full valuation of the 2021 laptop at current year 2024. -/
theorem estimate_laptop_2024 :
    estimate_value 2024 laptopAsset =
      { estimated_value := 17719, suggested_loan := 8859, ltv := 1/2 } := by
  have h1 : normalizeSubtype Category.electronics "laptop" = "laptop" := by decide
  have h2 : ((2024 : ℤ) - effectiveYear (some 2021)).toNat = 3 := by decide
  simp only [laptopAsset, estimate_value]
  rw [h1, h2]
  simp +decide only [base_map, conditionFactor, ltvOf]
  norm_num [roundHalfEven, max_def]

/-- Claim C3 counterexample: for the electronics asset with subtype
"tablet", no year and default condition, evaluated with current year 2024,
the code returns estimated_value 5000 and suggested_loan 2500 — not the
≈5537 and ≈2769 the claim states.  The raw depreciated value
20000 × 0.70 × 0.75⁴ = 4429.6875 falls below the 5000 floor. -/
theorem tablet_scenario_counterexample :
    (estimate_value 2024 sampleAsset).estimated_value = 5000 ∧
    (estimate_value 2024 sampleAsset).suggested_loan = 2500 ∧
    (estimate_value 2024 sampleAsset).estimated_value ≠ 5537 ∧
    (estimate_value 2024 sampleAsset).suggested_loan ≠ 2769 := by
  rw [estimate_tablet_2024]
  refine ⟨rfl, rfl, by norm_num, by norm_num⟩

/-- Claim C3 (amended): for the tablet asset the subtype still normalizes
to "other" with base 20000 and the age still resolves to 4 via the default
year 2020, but the depreciated value 20000 × 0.70 × 0.75⁴ = 4429.6875 is
below the 5000 minimum, so estimate returns estimated_value = 5000,
suggested_loan = 2500, ltv = 0.5. -/
theorem tablet_scenario :
    normalizeSubtype Category.electronics "tablet" = "other" ∧
    base_map Category.electronics "other" = 20000 ∧
    effectiveYear none = 2020 ∧
    ((2024 : ℤ) - effectiveYear none).toNat = 4 ∧
    (20000 : ℚ) * (7/10) * (3/4) ^ 4 = 4429.6875 ∧
    estimate_value 2024 sampleAsset =
      { estimated_value := 5000, suggested_loan := 2500, ltv := 1/2 } := by
  refine ⟨by decide, ?_, rfl, by decide, by norm_num, estimate_tablet_2024⟩
  simp +decide only [base_map]

/-- Claim C1 counterexample: for the 2021 laptop at current year 2024 the
returned suggested_loan is 8859 = round(17718.75 × 0.5), while rounding the
already-rounded estimated value first would give
round(17719 × 0.5) = round(8859.5) = 8860: the code does not compute the
suggested loan from the rounded estimated value. -/
theorem rounding_order_counterexample :
    (estimate_value 2024 laptopAsset).suggested_loan = 8859 ∧
    ((roundHalfEven ((estimate_value 2024 laptopAsset).estimated_value *
        (estimate_value 2024 laptopAsset).ltv) : ℤ) : ℚ) = 8860 ∧
    (estimate_value 2024 laptopAsset).suggested_loan ≠
      ((roundHalfEven ((estimate_value 2024 laptopAsset).estimated_value *
          (estimate_value 2024 laptopAsset).ltv) : ℤ) : ℚ) := by
  rw [estimate_laptop_2024]
  refine ⟨rfl, ?_, ?_⟩ <;> norm_num [roundHalfEven]

/-- Claim C1 (amended): for every asset, `estimate` computes the returned
suggested_loan as round(estimated × ltv) from the *pre-rounded* estimated
value (the value after the 5000 floor but before any rounding), and
separately returns estimated_value = round(estimated); it does not round
the estimated value first. -/
theorem suggested_loan_from_preround :
    ∀ (cy : ℤ) (a : LoanAsset),
      (estimate_value cy a).estimated_value =
        ((roundHalfEven (rawEstimated cy a) : ℤ) : ℚ) ∧
      (estimate_value cy a).suggested_loan =
        ((roundHalfEven (rawEstimated cy a * ltvOf a.category) : ℤ) : ℚ) := by
  intro cy a
  exact ⟨rfl, rfl⟩

/-- Claim C10: an asset whose year field is the integer 0 is estimated
exactly as if the year were absent, because Python `asset.year or 2020`
treats the falsy 0 like None and uses the default year 2020. -/
theorem year_zero_as_unspecified :
    ∀ (cy : ℤ) (a : LoanAsset),
      estimate_value cy { a with year := some 0 } =
        estimate_value cy { a with year := none } := by
  intro cy a
  rfl

/-- Claim C8: on every BYOB creation the persisted lender_id is the
lender company when present (non-null and non-empty), else the lender
name when non-empty, else the literal fallback "lender".  The lender name
is a required field, so "absent" for it means the empty string. -/
theorem byob_lender_id_resolution :
    ∀ (cy : ℤ) (payload : BYOBInput),
      (∀ c, payload.lender.company = some c → c ≠ "" →
        (create_byob cy payload).lender_id = some c) ∧
      ((payload.lender.company = none ∨ payload.lender.company = some "") →
        payload.lender.name ≠ "" →
        (create_byob cy payload).lender_id = some payload.lender.name) ∧
      ((payload.lender.company = none ∨ payload.lender.company = some "") →
        payload.lender.name = "" →
        (create_byob cy payload).lender_id = some "lender") := by
  intro cy payload
  obtain ⟨⟨lname, lmobile, lcompany⟩, b, a⟩ := payload
  refine ⟨?_, ?_, ?_⟩
  · intro c hc hne
    cases lcompany with
    | none => cases hc
    | some c2 =>
        cases hc
        simp [create_byob, byobLenderId, hne]
  · intro hc hname
    rcases hc with hc | hc <;> cases hc <;> simp [create_byob, byobLenderId, hname]
  · intro hc hname
    have hname2 : lname = "" := hname
    rcases hc with hc | hc <;> cases hc <;> simp [create_byob, byobLenderId, hname2]

/-- Witness for C8 at the concrete lender of the spec scenario:
name "Raj" and no company yields lender_id "Raj". -/
theorem byob_lender_id_resolution_witness :
    (create_byob 2024
      (BYOBInput.mk (Lender.mk "Raj" none none) sampleBorrower sampleAsset)).lender_id =
      some "Raj" :=
  (byob_lender_id_resolution 2024
      (BYOBInput.mk (Lender.mk "Raj" none none) sampleBorrower sampleAsset)).2.1
    (Or.inl rfl) (by decide)

/-- Helper: round-half-even never goes below the floor. -/
theorem floor_le_roundHalfEven (q : ℚ) : ⌊q⌋ ≤ roundHalfEven q := by
  unfold roundHalfEven
  split_ifs <;> omega

/-- Helper: round-half-even never exceeds the floor plus one. -/
theorem roundHalfEven_le_floor_add_one (q : ℚ) : roundHalfEven q ≤ ⌊q⌋ + 1 := by
  unfold roundHalfEven
  split_ifs <;> omega

/-- Helper: for a value of at least 5000 and a ratio of at most 3/5, the
rounded scaled value never exceeds the rounded value — the gap of at
least 2000 absorbs the one-unit slack of rounding. -/
theorem roundHalfEven_mul_le (E L : ℚ) (hE : 5000 ≤ E) (hL : L ≤ 3/5) :
    roundHalfEven (E * L) ≤ roundHalfEven E := by
  have h0 : (0 : ℚ) ≤ E := by linarith
  have hprod : (0 : ℚ) ≤ E * (3/5 - L) := mul_nonneg h0 (by linarith)
  have h1 : E * L ≤ E - 2000 := by nlinarith
  have h2 : ⌊E * L⌋ ≤ ⌊E - (2000 : ℚ)⌋ := Int.floor_mono h1
  have h3 : ⌊E - (2000 : ℚ)⌋ = ⌊E⌋ - 2000 := by
    exact_mod_cast Int.floor_sub_int E 2000
  have h4 := roundHalfEven_le_floor_add_one (E * L)
  have h5 := floor_le_roundHalfEven E
  omega

/-- Claim C6: for every asset — any category, any subtype string, any
year, any condition — and any current year, the suggested loan never
exceeds the estimated value, and the estimated value is at least 5000. -/
theorem estimate_bounds :
    ∀ (cy : ℤ) (a : LoanAsset),
      (estimate_value cy a).suggested_loan ≤ (estimate_value cy a).estimated_value ∧
      (5000 : ℚ) ≤ (estimate_value cy a).estimated_value := by
  intro cy a
  have hev : (estimate_value cy a).estimated_value =
      ((roundHalfEven (rawEstimated cy a) : ℤ) : ℚ) := rfl
  have hsl : (estimate_value cy a).suggested_loan =
      ((roundHalfEven (rawEstimated cy a * ltvOf a.category) : ℤ) : ℚ) := rfl
  have hE : (5000 : ℚ) ≤ rawEstimated cy a := le_max_left _ _
  have hL : ltvOf a.category ≤ 3/5 := by
    cases a.category <;> norm_num [ltvOf]
  rw [hev, hsl]
  constructor
  · exact_mod_cast roundHalfEven_mul_le _ _ hE hL
  · have h5 : (5000 : ℤ) ≤ ⌊rawEstimated cy a⌋ := by
      rw [Int.le_floor]
      exact_mod_cast hE
    have h6 := floor_le_roundHalfEven (rawEstimated cy a)
    exact_mod_cast (by omega : (5000 : ℤ) ≤ roundHalfEven (rawEstimated cy a))

end LSP
